import Mathlib

/-!
Verification development for the hivedb repository (a DB API style wrapper
around the HIVE command line tool).  The Python sources `cursors.py`,
`query.py` and `connections.py` are embedded shallowly: Python dictionaries
keyed by result-set ids become association lists, file-like line sources
become lists of raw lines, exceptions become `Except` values carrying an
error class and a message, and the mutable cursor object becomes an explicit
state record that every operation threads through.
-/

/-- Python exception classes raised by the embedded code paths. -/
inductive PyErr where
  | keyError
  | indexError
  | valueError
  | typeError
  | overflowError
  | nameError
  | programmingError
  | notSupportedError
deriving DecidableEq

/-- A raised Python exception: its class together with its message. -/
abbrev PyExc := PyErr × String

/-- A Python dict with natural-number keys, as an association list.  The
embedded code only ever reads a dict through indexing (`d[k]`), membership
(`has_key`) and deletion (`del d[k]`), so insertion order is unobservable. -/
abbrev Dict (α : Type) := List (Nat × α)

/-- Dict indexing `d[k]`: raises `KeyError` when the key is absent. -/
def dget {α : Type} (d : Dict α) (k : Nat) : Except PyExc α :=
  match List.lookup k d with
  | some v => Except.ok v
  | none => Except.error (PyErr.keyError, toString k)

/-- Remove every binding of key `k` (helper for assignment and deletion). -/
def derase {α : Type} (d : Dict α) (k : Nat) : Dict α :=
  List.filter (fun p => !(p.1 == k)) d

/-- Dict assignment `d[k] = v`: one binding per key is kept. -/
def dset {α : Type} (d : Dict α) (k : Nat) (v : α) : Dict α :=
  (k, v) :: derase d k

/-- Dict membership `d.has_key(k)`. -/
def dmem {α : Type} (d : Dict α) (k : Nat) : Bool :=
  match List.lookup k d with
  | some _ => true
  | none => false

/-- Dict deletion `del d[k]`: raises `KeyError` when the key is absent. -/
def ddel {α : Type} (d : Dict α) (k : Nat) : Except PyExc (Dict α) :=
  if dmem d k then Except.ok (derase d k) else Except.error (PyErr.keyError, toString k)

theorem lookup_derase_self {α : Type} (d : Dict α) (k : Nat) :
    List.lookup k (derase d k) = none := by
  induction d with
  | nil => rfl
  | cons p t ih =>
    by_cases h : p.1 = k
    · simp [derase, List.filter, h] at ih ⊢
      exact ih
    · simp only [derase, List.filter] at ih ⊢
      simp only [show (p.1 == k) = false by simpa using h, Bool.not_false]
      rw [List.lookup]
      simp only [show (k == p.1) = false by simpa using fun e => h e.symm]
      exact ih

theorem lookup_derase_ne {α : Type} (d : Dict α) (k k' : Nat) (h : k' ≠ k) :
    List.lookup k' (derase d k) = List.lookup k' d := by
  induction d with
  | nil => rfl
  | cons p t ih =>
    by_cases hp : p.1 = k
    · simp only [derase, List.filter, show (p.1 == k) = true by simpa using hp,
        Bool.not_true] at ih ⊢
      rw [ih, List.lookup]
      simp only [show (k' == p.1) = false by simp [hp]; exact fun e => h (e.symm ▸ rfl)]
    · simp only [derase, List.filter, show (p.1 == k) = false by simpa using hp,
        Bool.not_false] at ih ⊢
      rw [List.lookup, List.lookup]
      by_cases hk : k' = p.1
      · simp [hk]
      · simp only [show (k' == p.1) = false by simpa using hk]
        exact ih

theorem dget_dset_self {α : Type} (d : Dict α) (k : Nat) (v : α) :
    dget (dset d k v) k = Except.ok v := by
  simp [dget, dset, List.lookup]

theorem dget_dset_ne {α : Type} (d : Dict α) (k k' : Nat) (v : α) (h : k' ≠ k) :
    dget (dset d k v) k' = dget d k' := by
  simp only [dget, dset, List.lookup, show (k' == k) = false by simpa using h]
  rw [lookup_derase_ne d k k' h]

theorem dget_derase_self {α : Type} (d : Dict α) (k : Nat) :
    dget (derase d k) k = Except.error (PyErr.keyError, toString k) := by
  simp [dget, lookup_derase_self]

theorem dget_derase_ne {α : Type} (d : Dict α) (k k' : Nat) (h : k' ≠ k) :
    dget (derase d k) k' = dget d k' := by
  simp [dget, lookup_derase_ne d k k' h]

theorem dmem_of_dget {α : Type} (d : Dict α) (k : Nat) (v : α)
    (h : dget d k = Except.ok v) : dmem d k = true := by
  unfold dget at h
  unfold dmem
  cases hl : List.lookup k d with
  | some w => rfl
  | none => rw [hl] at h; exact absurd h (by simp)

theorem dmem_dset_self {α : Type} (d : Dict α) (k : Nat) (v : α) :
    dmem (dset d k v) k = true := by
  simp [dmem, dset, List.lookup]

theorem dmem_dset_ne {α : Type} (d : Dict α) (k k' : Nat) (v : α) (h : k' ≠ k) :
    dmem (dset d k v) k' = dmem d k' := by
  simp only [dmem, dset, List.lookup, show (k' == k) = false by simpa using h]
  rw [lookup_derase_ne d k k' h]

theorem ddel_of_dmem {α : Type} (d : Dict α) (k : Nat) (h : dmem d k = true) :
    ddel d k = Except.ok (derase d k) := by
  simp [ddel, h]

/-- Python list indexing `l[i]` for the non-negative indices used by the
source: raises `IndexError` when out of range. -/
def lget {α : Type} (l : List α) (i : Nat) : Except PyExc α :=
  match l.get? i with
  | some a => Except.ok a
  | none => Except.error (PyErr.indexError, "list index out of range")

theorem lget_of_get? {α : Type} (l : List α) (i : Nat) (a : α)
    (h : l.get? i = some a) : lget l i = Except.ok a := by
  unfold lget
  rw [h]

/-- The `replace('\n', '')` applied to every raw line before splitting. -/
def stripNL (s : String) : String := String.mk (s.data.filter (fun c => !(c == '\n')))

/-- Helper for `splitTab`: split a character list on tab characters. -/
def splitFields : List Char → List Char → List String
  | [], acc => [String.mk acc.reverse]
  | c :: r, acc =>
    if c == '\t' then String.mk acc.reverse :: splitFields r []
    else splitFields r (c :: acc)

/-- The `raw.replace('\n', '').split('\t')` idiom used on every line. -/
def splitTab (s : String) : List String := splitFields (stripNL s).data []

/-- Python substring test `pat in s`. -/
def strContains (s pat : String) : Bool :=
  s.data.tails.any (fun t => pat.data.isPrefixOf t)

/-- Reading one line from a file object modelled as its remaining lines:
`readline` yields the empty string once the stream is exhausted. -/
def readline : List String → String × List String
  | [] => ("", [])
  | l :: r => (l, r)

/-- Value of a non-empty digit run, base ten. -/
def digitsVal (l : List Char) : Nat :=
  l.foldl (fun a c => a * 10 + (c.toNat - '0'.toNat)) 0

/-- Python strips surrounding whitespace before parsing numeric strings. -/
def trimWS (l : List Char) : List Char :=
  ((l.dropWhile Char.isWhitespace).reverse.dropWhile Char.isWhitespace).reverse

/-- Optional sign character; returns whether the value is negated. -/
def parseSign : List Char → Bool × List Char
  | '-' :: r => (true, r)
  | '+' :: r => (false, r)
  | l => (false, l)

/-- Case-insensitive comparison against a keyword, for inf and nan parsing. -/
def lowerIs (l : List Char) (kw : String) : Bool :=
  l.map Char.toLower == kw.data

/-- An exact decimal value as an unreduced integer fraction (denominator a
power of ten).  The embedded code only produces such numbers and never
compares them, so no normalisation is needed. -/
structure PyNum where
  num : Int
  den : Nat
deriving DecidableEq

/-- Result of a Python `float(...)` call: a finite value or one of the
special values.  Finite values keep their exact decimal reading; this model
does not round to binary floating point, which no claim depends on. -/
inductive PyFloat where
  | finite (q : PyNum)
  | inf
  | ninf
  | nan
deriving DecidableEq

/-- Numeric value of a decimal literal with optional fraction and exponent. -/
def decimalValue (neg : Bool) (ip fp : List Char) (eneg : Bool) (ed : List Char) : PyNum :=
  let m : Int := ((digitsVal ip * 10 ^ fp.length + digitsVal fp : Nat) : Int)
  let m : Int := if neg then -m else m
  let e := digitsVal ed
  if eneg then { num := m, den := 10 ^ (fp.length + e) }
  else { num := m * ((10 ^ e : Nat) : Int), den := 10 ^ fp.length }

/-- Exponent part of a float literal, after the mantissa has been read. -/
def parseExpPart (neg : Bool) (ip fp : List Char) : List Char → Option PyFloat
  | [] => some (PyFloat.finite (decimalValue neg ip fp false []))
  | c :: r =>
    if c == 'e' || c == 'E' then
      let (eneg, r1) := parseSign r
      let ed := r1.takeWhile Char.isDigit
      let r2 := r1.dropWhile Char.isDigit
      if ed.isEmpty || !r2.isEmpty then none
      else some (PyFloat.finite (decimalValue neg ip fp eneg ed))
    else none

/-- Mantissa of a float literal: digits with an optional fraction part. -/
def parseDecimal (neg : Bool) (l : List Char) : Option PyFloat :=
  let ip := l.takeWhile Char.isDigit
  let r1 := l.dropWhile Char.isDigit
  match r1 with
  | '.' :: r2 =>
    let fp := r2.takeWhile Char.isDigit
    let r3 := r2.dropWhile Char.isDigit
    if ip.isEmpty && fp.isEmpty then none else parseExpPart neg ip fp r3
  | _ => if ip.isEmpty then none else parseExpPart neg ip [] r1

/-- Python `float(value)` on a string: strip whitespace, optional sign, then a
decimal literal or the case-insensitive special values inf, infinity, nan.
Returns `none` where Python raises `ValueError`. -/
def float_parse (s : String) : Option PyFloat :=
  let l := trimWS s.data
  let (neg, l1) := parseSign l
  if lowerIs l1 "inf" || lowerIs l1 "infinity" then
    some (if neg then PyFloat.ninf else PyFloat.inf)
  else if lowerIs l1 "nan" then some PyFloat.nan
  else parseDecimal neg l1

/-- Python `int(value)` on a string: strip whitespace, optional sign, then
digits only.  Returns `none` where Python raises `ValueError`. -/
def int_parse (s : String) : Option Int :=
  let l := trimWS s.data
  let (neg, l1) := parseSign l
  let ds := l1.takeWhile Char.isDigit
  let r := l1.dropWhile Char.isDigit
  if ds.isEmpty || !r.isEmpty then none
  else some (if neg then -(digitsVal ds : Int) else (digitsVal ds : Int))

/-- Truncation of a fraction toward zero, as Python `int(...)` on a float. -/
def ratTrunc (q : PyNum) : Int :=
  if 0 ≤ q.num then ((q.num.toNat / q.den : Nat) : Int)
  else -(((-q.num).toNat / q.den : Nat) : Int)

/-- Python `int(...)` applied to a float value: truncates toward zero, raises
on the special values. -/
def int_of_float : PyFloat → Except PyExc Int
  | PyFloat.finite q => Except.ok (ratTrunc q)
  | PyFloat.inf => Except.error (PyErr.overflowError, "cannot convert float infinity to integer")
  | PyFloat.ninf => Except.error (PyErr.overflowError, "cannot convert float infinity to integer")
  | PyFloat.nan => Except.error (PyErr.valueError, "cannot convert float NaN to integer")

/-- JSON values as produced by `simplejson.loads`. -/
inductive Json where
  | null
  | bool (b : Bool)
  | num (q : PyNum)
  | str (s : String)
  | arr (elems : List Json)
  | obj (fields : List (String × Json))

/-- JSON whitespace skipping. -/
def skipWS (l : List Char) : List Char :=
  l.dropWhile (fun c => c == ' ' || c == '\t' || c == '\n' || c == '\r')

/-- Hex digit value for unicode escapes, on raw code points. -/
def hexVal (c : Char) : Option Nat :=
  let n := c.toNat
  if 48 ≤ n && n ≤ 57 then some (n - 48)
  else if 97 ≤ n && n ≤ 102 then some (n - 87)
  else if 65 ≤ n && n ≤ 70 then some (n - 55)
  else none

/-- Body of a JSON string literal, after the opening quote. -/
def parseJStr : List Char → Option (String × List Char)
  | [] => none
  | '"' :: r => some ("", r)
  | '\\' :: e :: r =>
    match e with
    | '"' => (parseJStr r).map (fun p => (String.mk ('"' :: p.1.data), p.2))
    | '\\' => (parseJStr r).map (fun p => (String.mk ('\\' :: p.1.data), p.2))
    | '/' => (parseJStr r).map (fun p => (String.mk ('/' :: p.1.data), p.2))
    | 'b' => (parseJStr r).map (fun p => (String.mk ('\x08' :: p.1.data), p.2))
    | 'f' => (parseJStr r).map (fun p => (String.mk ('\x0c' :: p.1.data), p.2))
    | 'n' => (parseJStr r).map (fun p => (String.mk ('\n' :: p.1.data), p.2))
    | 'r' => (parseJStr r).map (fun p => (String.mk ('\r' :: p.1.data), p.2))
    | 't' => (parseJStr r).map (fun p => (String.mk ('\t' :: p.1.data), p.2))
    | 'u' =>
      match r with
      | h1 :: h2 :: h3 :: h4 :: r2 =>
        match hexVal h1, hexVal h2, hexVal h3, hexVal h4 with
        | some a, some b, some c, some d =>
          let code := a * 4096 + b * 256 + c * 16 + d
          (parseJStr r2).map (fun p => (String.mk (Char.ofNat code :: p.1.data), p.2))
        | _, _, _, _ => none
      | _ => none
    | _ => none
  | c :: r => (parseJStr r).map (fun p => (String.mk (c :: p.1.data), p.2))

/-- JSON number literal (strict grammar: no leading zeros, mandatory digits). -/
def parseJNum (l : List Char) : Option (Json × List Char) :=
  let (neg, l1) := match l with
    | '-' :: r => (true, r)
    | _ => (false, l)
  let ds := l1.takeWhile Char.isDigit
  let r1 := l1.dropWhile Char.isDigit
  if ds.isEmpty then none
  else if ds.length > 1 && ds.head? == some '0' then none
  else
    match r1 with
    | '.' :: r2 =>
      let fp := r2.takeWhile Char.isDigit
      let r3 := r2.dropWhile Char.isDigit
      if fp.isEmpty then none
      else
        match r3 with
        | 'e' :: r4 => parseJNumExp neg ds fp r4
        | 'E' :: r4 => parseJNumExp neg ds fp r4
        | _ => some (Json.num (decimalValue neg ds fp false []), r3)
    | 'e' :: r2 => parseJNumExp neg ds [] r2
    | 'E' :: r2 => parseJNumExp neg ds [] r2
    | _ => some (Json.num (decimalValue neg ds [] false []), r1)
where
  parseJNumExp (neg : Bool) (ip fp : List Char) (l : List Char) : Option (Json × List Char) :=
    let (eneg, l1) := parseSign l
    let ed := l1.takeWhile Char.isDigit
    let r := l1.dropWhile Char.isDigit
    if ed.isEmpty then none
    else some (Json.num (decimalValue neg ip fp eneg ed), r)

mutual

/-- Fuel-indexed JSON value grammar; the fuel strictly exceeds the input
length, so exhaustion is unreachable on the strings this file evaluates. -/
def parseJVal : Nat → List Char → Option (Json × List Char)
  | 0, _ => none
  | fuel + 1, l =>
    match skipWS l with
    | 'n' :: 'u' :: 'l' :: 'l' :: r => some (Json.null, r)
    | 't' :: 'r' :: 'u' :: 'e' :: r => some (Json.bool true, r)
    | 'f' :: 'a' :: 'l' :: 's' :: 'e' :: r => some (Json.bool false, r)
    | '"' :: r => (parseJStr r).map (fun p => (Json.str p.1, p.2))
    | '[' :: r =>
      (match skipWS r with
       | ']' :: r2 => some (Json.arr [], r2)
       | r2 => (parseJArr fuel r2).map (fun p => (Json.arr p.1, p.2)))
    | '{' :: r =>
      (match skipWS r with
       | '}' :: r2 => some (Json.obj [], r2)
       | r2 => (parseJObj fuel r2).map (fun p => (Json.obj p.1, p.2)))
    | l1 => parseJNum l1

/-- One-or-more comma-separated array elements, then the closing bracket. -/
def parseJArr : Nat → List Char → Option (List Json × List Char)
  | 0, _ => none
  | fuel + 1, l =>
    match parseJVal fuel l with
    | none => none
    | some (v, r) =>
      match skipWS r with
      | ',' :: r2 => (parseJArr fuel r2).map (fun p => (v :: p.1, p.2))
      | ']' :: r2 => some ([v], r2)
      | _ => none

/-- One-or-more comma-separated object members, then the closing brace. -/
def parseJObj : Nat → List Char → Option (List (String × Json) × List Char)
  | 0, _ => none
  | fuel + 1, l =>
    match skipWS l with
    | '"' :: r =>
      (match parseJStr r with
       | none => none
       | some (key, r1) =>
         match skipWS r1 with
         | ':' :: r2 =>
           (match parseJVal fuel r2 with
            | none => none
            | some (v, r3) =>
              match skipWS r3 with
              | ',' :: r4 => (parseJObj fuel r4).map (fun p => ((key, v) :: p.1, p.2))
              | '}' :: r4 => some ([(key, v)], r4)
              | _ => none)
         | _ => none)
    | _ => none

end

/-- The `simplejson.loads(value)` call: parse one JSON value and require only
trailing whitespace after it.  Returns `none` where the library raises. -/
def json_loads (s : String) : Option Json :=
  match parseJVal (s.length + 1) s.data with
  | some (j, r) => if (skipWS r).isEmpty then some j else none
  | none => none

/-- Values produced by decoding a field, mirroring the Python value kinds
returned by `force_type` (including Python `None`). -/
inductive PyVal where
  | int (n : Int)
  | float (f : PyFloat)
  | str (s : String)
  | json (j : Json)
  | none

/-- The `infer_type` function of cursors.py: try `float(value)`, then nest a
`int(value)` attempt inside its success path; on float failure fall back to
`json.loads(value)` and finally to text. -/
def infer_type (value : String) : String :=
  match float_parse value with
  | some _ =>
    match int_parse value with
    | some _ => "int"
    | none => "float"
  | none =>
    match json_loads value with
    | some _ => "json"
    | none => "str"

/-- The `force_type` function of cursors.py: per-kind decoding with the
literal text NULL as null sentinel.  The `Except` error cases are the
exceptions the Python calls `int(float(value))`, `float(value)` and
`json.loads(value)` can raise; an unknown kind falls off the end of the
function and yields Python `None`. -/
def force_type (type : String) (value : String) : Except PyExc PyVal :=
  if type == "int" then
    if value == "NULL" then Except.ok (PyVal.int 0)
    else
      match float_parse value with
      | some f =>
        match int_of_float f with
        | Except.ok n => Except.ok (PyVal.int n)
        | Except.error e => Except.error e
      | none => Except.error (PyErr.valueError, "could not convert string to float: " ++ value)
  else if type == "float" then
    if value == "NULL" then Except.ok (PyVal.float (PyFloat.finite ⟨0, 1⟩))
    else
      match float_parse value with
      | some f => Except.ok (PyVal.float f)
      | none => Except.error (PyErr.valueError, "could not convert string to float: " ++ value)
  else if type == "str" then
    if value == "NULL" then Except.ok (PyVal.str "") else Except.ok (PyVal.str value)
  else if type == "json" then
    if value == "NULL" then Except.ok PyVal.none
    else
      match json_loads value with
      | some j => Except.ok (PyVal.json j)
      | none => Except.error (PyErr.valueError, "no JSON object could be decoded")
  else Except.ok PyVal.none

/-- A schema: for each column the name and the inferred kind, in order. -/
abbrev Schema := List (String × String)

/-- The per-field decoding loop inside `BaseCursor._fetch_row` (lines 268 to
272 of cursors.py): walk the raw fields, look the kind up in the schema at
the running index, and decode through `force_type`.  The walk is over the
fields of the row, so a row shorter than the schema simply stops early and a
row longer than the schema raises `IndexError` from the schema lookup. -/
def decodeRow (desc : Schema) (fields : List String) (index : Nat) : Except PyExc (List PyVal) :=
  match fields with
  | [] => Except.ok []
  | f :: rest =>
    match lget desc index with
    | Except.error e => Except.error e
    | Except.ok col =>
      match force_type col.2 f with
      | Except.error e => Except.error e
      | Except.ok v =>
        match decodeRow desc rest (index + 1) with
        | Except.error e => Except.error e
        | Except.ok tail => Except.ok (v :: tail)

/-- Whether `int(float(value))` succeeds: the float parse accepts the value
and the result is not one of the untruncatable special values. -/
def intCoercible (value : String) : Bool :=
  match float_parse value with
  | some f =>
    match int_of_float f with
    | Except.ok _ => true
    | Except.error _ => false
  | none => false

/-- A field value that the kind inferred for its column can decode: either
the null sentinel or a value its parser accepts.  This is the hypothesis the
amended totality statement needs. -/
def wellKinded (kind value : String) : Bool :=
  value == "NULL" ||
  (if kind == "int" then intCoercible value
  else if kind == "float" then (float_parse value).isSome
  else if kind == "json" then (json_loads value).isSome
  else true)

/-- C7: infer_type classifies by priority: under float-parse success the
result is int exactly on integer-literal success and float otherwise; under
float-parse failure the result is json exactly on structured-parse success
and text otherwise.  A value that fails integer parsing but parses as a
float is therefore float, never text. -/
theorem infer_type_priority (v : String) :
    ((float_parse v).isSome = true →
      ((int_parse v).isSome = true → infer_type v = "int") ∧
      ((int_parse v).isSome = false → infer_type v = "float") ∧
      infer_type v ≠ "str") ∧
    ((float_parse v).isSome = false →
      ((json_loads v).isSome = true → infer_type v = "json") ∧
      ((json_loads v).isSome = false → infer_type v = "str")) := by
  unfold infer_type
  cases hf : float_parse v with
  | some f =>
    cases hi : int_parse v with
    | some n => simp
    | none => simp
  | none =>
    cases hj : json_loads v with
    | some j => simp
    | none => simp

/-- Witness for infer_type_priority: the value 3.5 parses as a float but not
as an integer literal, so it is classified float. -/
theorem infer_type_priority_witness : infer_type "3.5" = "float" :=
  ((infer_type_priority "3.5").1 (by decide)).2.1 (by decide)

/-- C9: decoding the literal NULL yields each kind's zero-ish value (integer
0, float 0.0, empty text, Python None for json) and never an error; non-NULL
values decode as: integer via float-parse-then-truncate (so 3.0 becomes the
integer 3), float via direct numeric parse, text unchanged, json via
structured parse. -/
theorem force_type_null_and_kinds :
    force_type "int" "NULL" = Except.ok (PyVal.int 0) ∧
    force_type "float" "NULL" = Except.ok (PyVal.float (PyFloat.finite ⟨0, 1⟩)) ∧
    force_type "str" "NULL" = Except.ok (PyVal.str "") ∧
    force_type "json" "NULL" = Except.ok PyVal.none ∧
    (∀ v f, v ≠ "NULL" → float_parse v = some f →
      force_type "int" v = (match int_of_float f with
        | Except.ok n => Except.ok (PyVal.int n)
        | Except.error e => Except.error e)) ∧
    (∀ v f, v ≠ "NULL" → float_parse v = some f →
      force_type "float" v = Except.ok (PyVal.float f)) ∧
    (∀ v, v ≠ "NULL" → force_type "str" v = Except.ok (PyVal.str v)) ∧
    (∀ v j, v ≠ "NULL" → json_loads v = some j →
      force_type "json" v = Except.ok (PyVal.json j)) ∧
    force_type "int" "3.0" = Except.ok (PyVal.int 3) := by
  refine ⟨rfl, rfl, rfl, rfl, ?_, ?_, ?_, ?_, rfl⟩
  · intro v f hv hf
    simp [force_type, show (v == "NULL") = false by simpa using hv, hf]
  · intro v f hv hf
    simp [force_type, show (v == "NULL") = false by simpa using hv, hf]
  · intro v hv
    simp [force_type, show (v == "NULL") = false by simpa using hv]
  · intro v j hv hj
    simp [force_type, show (v == "NULL") = false by simpa using hv, hj]

/-- Witness for force_type_null_and_kinds: the non-NULL float clause at the
value 2.5. -/
theorem force_type_null_and_kinds_witness :
    force_type "float" "2.5" = Except.ok (PyVal.float (PyFloat.finite ⟨25, 10⟩)) :=
  force_type_null_and_kinds.2.2.2.2.2.1 "2.5" (PyFloat.finite ⟨25, 10⟩) (by decide) (by decide)

/-- Counterexample to C8 as stated: a one-column int schema and the one-field
line abc have equal lengths, yet decoding raises a ValueError from the float
parse, so decoding is not total on all length-matched lines. -/
theorem decode_row_not_total_counterexample :
    decodeRow [("a", "int")] ["abc"] 0 =
      Except.error (PyErr.valueError, "could not convert string to float: abc") := rfl

theorem force_type_ok_of_wellKinded (k v : String) (h : wellKinded k v = true) :
    ∃ w, force_type k v = Except.ok w := by
  unfold wellKinded at h
  unfold force_type
  by_cases hn : v == "NULL"
  · by_cases h1 : k == "int" <;> by_cases h2 : k == "float" <;>
      by_cases h3 : k == "str" <;> by_cases h4 : k == "json" <;>
      simp [h1, h2, h3, h4, hn]
  · simp only [hn, Bool.false_or] at h
    by_cases h1 : k == "int"
    · simp only [h1, if_true] at h
      cases hf : float_parse v with
      | some f =>
        simp only [intCoercible, hf] at h
        cases hio : int_of_float f with
        | ok n => simp [h1, hn, hf, hio]
        | error e => simp [hio] at h
      | none => simp [intCoercible, hf] at h
    · by_cases h2 : k == "float"
      · simp only [h1, h2, if_false, if_true, Bool.not_eq_true] at h
        cases hf : float_parse v with
        | some f => simp [h1, h2, hn, hf]
        | none => simp [hf] at h
      · by_cases h3 : k == "str"
        · simp [h1, h2, h3, hn]
        · by_cases h4 : k == "json"
          · simp only [h1, h2, h3, h4, if_false, if_true, Bool.not_eq_true] at h
            cases hj : json_loads v with
            | some j => simp [h1, h2, h3, h4, hn, hj]
            | none => simp [hj] at h
          · simp [h1, h2, h3, h4]

theorem decodeRow_total_aux (desc : Schema) :
    ∀ (fields : List String) (i : Nat),
      (∀ j f, fields.get? j = some f →
        ∃ c, desc.get? (i + j) = some c ∧ wellKinded c.2 f = true) →
      ∃ row, decodeRow desc fields i = Except.ok row ∧ row.length = fields.length := by
  intro fields
  induction fields with
  | nil => intro i _; exact ⟨[], rfl, rfl⟩
  | cons f rest ih =>
    intro i hwf
    obtain ⟨c, hc, hk⟩ := hwf 0 f rfl
    obtain ⟨v, hv⟩ := force_type_ok_of_wellKinded c.2 f hk
    obtain ⟨tail, htail, hlen⟩ := ih (i + 1) (by
      intro j g hg
      obtain ⟨c2, hc2, hk2⟩ := hwf (j + 1) g (by simpa using hg)
      exact ⟨c2, by rw [show i + 1 + j = i + (j + 1) by omega]; exact hc2, hk2⟩)
    refine ⟨v :: tail, ?_, by simp [hlen]⟩
    simp only [decodeRow, lget_of_get? desc i c (by simpa using hc), hv, htail]

/-- C8 amended: decoding a length-matched line is total provided every field
is either the null sentinel or accepted by its column kind's parser (this is
exactly what the counterexample forces: a non-NULL, non-numeric field under
an int or float kind, or a non-JSON field under a json kind, raises). -/
theorem decode_row_total_on_well_kinded (desc : Schema) (fields : List String)
    (hlen : fields.length = desc.length)
    (hwf : ∀ j f c, fields.get? j = some f → desc.get? j = some c → wellKinded c.2 f = true) :
    ∃ row, decodeRow desc fields 0 = Except.ok row ∧ row.length = fields.length := by
  apply decodeRow_total_aux
  intro j f hf
  have hj : j < desc.length := by
    rw [← hlen]
    exact (List.get?_eq_some.mp hf).1
  have hc : desc.get? j = some (desc.get ⟨j, hj⟩) := List.get?_eq_get hj
  exact ⟨desc.get ⟨j, hj⟩, by simp [hc], hwf j f _ hf hc⟩

/-- Witness for decode_row_total_on_well_kinded: a NULL int field and an
ordinary text field decode without error. -/
theorem decode_row_total_on_well_kinded_witness :
    ∃ row, decodeRow [("a", "int"), ("b", "str")] ["NULL", "xy"] 0 = Except.ok row ∧
      row.length = 2 :=
  decode_row_total_on_well_kinded [("a", "int"), ("b", "str")] ["NULL", "xy"] rfl (by
    intro j f c hf hc
    match j with
    | 0 =>
      simp only [List.get?] at hf hc
      cases hf; cases hc; decide
    | 1 =>
      simp only [List.get?] at hf hc
      cases hf; cases hc; decide
    | n + 2 => simp [List.get?] at hf)

/-- The `_trigger_columns` attribute: Python keeps one tuple that first holds
the configured column names (from `settriggers`) and is replaced by a tuple
of resolved column indices once the output handler has seen the schema. -/
inductive TrigCols where
  | names (l : List String)
  | indices (l : List Nat)
deriving DecidableEq

/-- The `self._trigger_columns == ()` test: true for an empty tuple of either
provenance. -/
def isEmptyTC : TrigCols → Bool
  | TrigCols.names [] => true
  | TrigCols.indices [] => true
  | _ => false

/-- The resolved trigger column indices (empty while still unresolved). -/
def tcIndices : TrigCols → List Nat
  | TrigCols.indices l => l
  | TrigCols.names _ => []

/-- The mutable state of a cursor object: the fields set in
`BaseCursor.__init__` plus the class attributes of the triggered mix-in and
the connection attributes the cursor reads.  Line sources owned by the
`_result` dict are modelled as their remaining raw lines. -/
structure CState where
  connected : Bool := true
  user : Option String := none
  write_access : Bool := false
  descriptions : Dict Schema := []
  description : Option Schema := none
  result : Dict (List String) := []
  buffer : Dict (Option String) := []
  result_index : Nat := 0
  executed : Option String := none
  messages : List PyExc := []
  arraysize : Nat := 1
  trigger_init : Bool := false
  trigger_columns : TrigCols := TrigCols.names []
  trigger_column_values : Dict String := []

/-- A freshly constructed cursor on an open connection. -/
def initCState : CState := {}

/-- Python truthiness of the optional lookahead entry: `None` and the empty
string are falsy. -/
def truthyOpt : Option String → Bool
  | Option.none => false
  | some s => s != ""

/-- Python truthiness of `self._executed` (a query string or None). -/
def truthyExec : Option String → Bool
  | Option.none => false
  | some s => s != ""

/-- The default error-handler chain (`connections.defaulterrorhandler`):
append the (class, value) pair to the cursor's messages, then raise. -/
def errorhandler (st : CState) (e : PyErr) (msg : String) : Except PyExc Unit × CState :=
  (Except.error (e, msg), { st with messages := st.messages ++ [(e, msg)] })

/-- The `BaseCursor._check_executed` guard. -/
def check_executed (st : CState) : Except PyExc Unit × CState :=
  if truthyExec st.executed then (Except.ok (), st)
  else errorhandler st PyErr.programmingError "execute() first"

/-- The `BaseCursor._read_buffer` method: one readline on the current id's
line source.  Raises `KeyError` when the id has no source entry. -/
def base_read_buffer (st : CState) : Except PyExc (Option String) × CState :=
  match dget st.result st.result_index with
  | Except.error e => (Except.error e, st)
  | Except.ok src =>
    match readline src with
    | (line, rest) =>
      (Except.ok (some line), { st with result := dset st.result st.result_index rest })

/-- The tail of `BaseCursor._fetch_row` from `if not raw:` on: empty or
absent raw lines end the set, otherwise the line is split on tabs and decoded
column by column against `self.description`.  Rows are returned as the
decoded list (the tuple mix-in's `_decorate_row` is the identity on the
contents). -/
def decodePhase (st : CState) (raw : Option String) : Except PyExc (Option (List PyVal)) × CState :=
  if !truthyOpt raw then (Except.ok none, st)
  else
    let fields := splitTab (raw.getD "")
    match st.description with
    | Option.none => (Except.error (PyErr.typeError, "NoneType object is unsubscriptable"), st)
    | some desc =>
      match decodeRow desc fields 0 with
      | Except.error e => (Except.error e, st)
      | Except.ok row => (Except.ok (some row), st)

/-- The `BaseCursor._fetch_row` method: serve the buffered lookahead line if
it is truthy (clearing it), otherwise read from the line source, turning a
`KeyError` from the read into end-of-set; then decode.  `rb` is the
dynamically dispatched `_read_buffer` (base or triggered). -/
def fetch_row (rb : CState → Except PyExc (Option String) × CState) (st : CState) :
    Except PyExc (Option (List PyVal)) × CState :=
  match dget st.buffer st.result_index with
  | Except.error e => (Except.error e, st)
  | Except.ok look =>
    if truthyOpt look then
      decodePhase { st with buffer := dset st.buffer st.result_index Option.none } look
    else
      match rb st with
      | (Except.error (PyErr.keyError, _), st2) => (Except.ok none, st2)
      | (Except.error e, st2) => (Except.error e, st2)
      | (Except.ok raw, st2) => decodePhase st2 raw

/-- The `CursorStreamResultMixIn.fetchone` method. -/
def fetchone (rb : CState → Except PyExc (Option String) × CState) (st : CState) :
    Except PyExc (Option (List PyVal)) × CState :=
  match check_executed st with
  | (Except.error e, st1) => (Except.error e, st1)
  | (Except.ok _, st1) => fetch_row rb st1

/-- The counting loop of `fetchmany`: exactly `size` single-row fetches, each
result appended unconditionally. -/
def fmLoop (rb : CState → Except PyExc (Option String) × CState) :
    Nat → CState → List (Option (List PyVal)) → Except PyExc (List (Option (List PyVal))) × CState
  | 0, st, acc => (Except.ok acc, st)
  | k + 1, st, acc =>
    match fetch_row rb st with
    | (Except.error e, st1) => (Except.error e, st1)
    | (Except.ok row, st1) => fmLoop rb k st1 (acc ++ [row])

/-- The `CursorStreamResultMixIn.fetchmany` method: a falsy size argument
falls back to `arraysize`; then the counting loop runs. -/
def fetchmany (rb : CState → Except PyExc (Option String) × CState) (st : CState)
    (size : Option Nat) : Except PyExc (List (Option (List PyVal))) × CState :=
  match check_executed st with
  | (Except.error e, st1) => (Except.error e, st1)
  | (Except.ok _, st1) =>
    let n := match size with
      | Option.none => st1.arraysize
      | some k => if k == 0 then st1.arraysize else k
    fmLoop rb n st1 []

/-- The while loop of `fetchall`: fetch until a falsy row (None or an empty
list).  The fuel bounds the loop; each continuing iteration consumes a line
from the finite source, so a fuel above the source length is enough. -/
def faLoop (rb : CState → Except PyExc (Option String) × CState) :
    Nat → CState → List (List PyVal) → Except PyExc (List (List PyVal)) × CState
  | 0, st, acc => (Except.ok acc, st)
  | fuel + 1, st, acc =>
    match fetch_row rb st with
    | (Except.error e, st1) => (Except.error e, st1)
    | (Except.ok Option.none, st1) => (Except.ok acc, st1)
    | (Except.ok (some row), st1) =>
      if row.isEmpty then (Except.ok acc, st1)
      else faLoop rb fuel st1 (acc ++ [row])

/-- The `CursorStreamResultMixIn.fetchall` method.  Unlike its two siblings
it performs no `_check_executed` guard before fetching. -/
def fetchall (rb : CState → Except PyExc (Option String) × CState) (fuel : Nat) (st : CState) :
    Except PyExc (List (List PyVal)) × CState :=
  faLoop rb fuel st []

/-- The draining while loop of `nextset` (`while self._read_buffer(): pass`
inside `try ... except KeyError: pass`): keep reading until a falsy line; a
`KeyError` is swallowed and ends the loop.  Fuel as in `faLoop`. -/
def drain (rb : CState → Except PyExc (Option String) × CState) :
    Nat → CState → Except PyExc Unit × CState
  | 0, st => (Except.ok (), st)
  | fuel + 1, st =>
    match rb st with
    | (Except.error (PyErr.keyError, _), st1) => (Except.ok (), st1)
    | (Except.error e, st1) => (Except.error e, st1)
    | (Except.ok Option.none, st1) => (Except.ok (), st1)
    | (Except.ok (some s), st1) =>
      if s == "" then (Except.ok (), st1) else drain rb fuel st1

/-- The `BaseCursor.nextset` method: check executed, drain the current id,
clear the message log, advance the index, then look the new id's description
up (a lookup that raises `KeyError` when there is no successor entry) and
finally compute the documented None/True result. -/
def nextset (rb : CState → Except PyExc (Option String) × CState) (st : CState) :
    Except PyExc (Option Bool) × CState :=
  match check_executed st with
  | (Except.error e, st1) => (Except.error e, st1)
  | (Except.ok _, st1) =>
    let fuel := (match dget st1.result st1.result_index with
      | Except.ok l => l.length
      | Except.error _ => 0) + 1
    match (if truthyExec st1.executed then drain rb fuel st1 else (Except.ok (), st1)) with
    | (Except.error e, st2) => (Except.error e, st2)
    | (Except.ok _, st2) =>
      let st3 := { st2 with messages := [], result_index := st2.result_index + 1 }
      match dget st3.descriptions st3.result_index with
      | Except.error e => (Except.error e, st3)
      | Except.ok d =>
        let st4 := { st3 with description := some d }
        if !dmem st4.result st4.result_index then
          match dget st4.buffer st4.result_index with
          | Except.error e => (Except.error e, st4)
          | Except.ok b =>
            if b ≠ Option.none then (Except.ok none, st4) else (Except.ok (some true), st4)
        else (Except.ok (some true), st4)

/-- A cursor that has executed a query yielding one result set (id 0) whose
schema is a single int column, with the first data row in the lookahead
buffer and one further row in the live source. -/
def singleSetState : CState :=
  { executed := some "SELECT 1",
    descriptions := [(0, [("a", "int")])], description := some [("a", "int")],
    result := [(0, ["2\n"])], buffer := [(0, some "1\n")] }

/-- C3 failing input: on a cursor holding only result set 0, `nextset()`
drains the set but then raises `KeyError` from the `_descriptions` lookup at
the advanced index 1 instead of returning None as its docstring promises. -/
theorem nextset_end_raises_keyerror :
    nextset base_read_buffer singleSetState =
      (Except.error (PyErr.keyError, "1"),
       { singleSetState with result := [(0, [])], messages := [], result_index := 1 }) := rfl

/-- A cursor on a one-row result set: the single data row sits in the
lookahead buffer and the live source is already exhausted. -/
def oneRowState : CState :=
  { executed := some "SELECT 1",
    descriptions := [(0, [("a", "int")])], description := some [("a", "int")],
    result := [(0, [])], buffer := [(0, some "1\n")] }

/-- C4 failing input: `fetchmany(3)` on a one-row set returns a batch of
length 3 padded with two None entries instead of the short batch of the one
real row that its own docstring (result may be smaller than size) and the
spec describe. -/
theorem fetchmany_pads_with_none :
    fetchmany base_read_buffer oneRowState (some 3) =
      (Except.ok [some [PyVal.int 1], none, none],
       { oneRowState with buffer := [(0, Option.none)] }) := rfl

/-- A cursor whose schema has two columns while the buffered data row has a
single field. -/
def shortRowState : CState :=
  { executed := some "SELECT 1",
    descriptions := [(0, [("a", "int"), ("b", "str")])],
    description := some [("a", "int"), ("b", "str")],
    result := [(0, [])], buffer := [(0, some "5\n")] }

/-- C5 failing input: a data row with one field under a two-column schema is
returned as a silently truncated one-element row, with no error raised and
nothing appended to the message log, contradicting the required surfacing of
field-count mismatches through the error hook. -/
theorem fetch_row_truncates_short_row :
    fetch_row base_read_buffer shortRowState =
      (Except.ok (some [PyVal.int 5]), { shortRowState with buffer := [(0, Option.none)] }) ∧
    (fetch_row base_read_buffer shortRowState).2.messages = [] := ⟨rfl, rfl⟩

/-- C6 failing input: on an unexecuted cursor, `fetchone` and `fetchmany` go
through `_check_executed` and raise the usage error via the error hook
(appending it to messages), but `fetchall` skips the guard and dies with a
bare `KeyError` from the empty `_buffer` dict, never reaching the hook. -/
theorem unexecuted_fetch_behavior :
    fetchone base_read_buffer initCState =
      (Except.error (PyErr.programmingError, "execute() first"),
       { initCState with messages := [(PyErr.programmingError, "execute() first")] }) ∧
    fetchmany base_read_buffer initCState none =
      (Except.error (PyErr.programmingError, "execute() first"),
       { initCState with messages := [(PyErr.programmingError, "execute() first")] }) ∧
    fetchall base_read_buffer 1 initCState =
      (Except.error (PyErr.keyError, "0"), initCState) := ⟨rfl, rfl, rfl⟩

/-- The schema-building loop shared by the output handlers: pair each header
column name with the kind inferred from the first data row's field at the
same running index (an index that raises `IndexError` when the first data
row has fewer fields than the header). -/
def buildDescription (columns fields : List String) (index : Nat) : Except PyExc Schema :=
  match columns with
  | [] => Except.ok []
  | c :: rest =>
    match lget fields index with
    | Except.error e => Except.error e
    | Except.ok v =>
      match buildDescription rest fields (index + 1) with
      | Except.error e => Except.error e
      | Except.ok tail => Except.ok ((c, infer_type v) :: tail)

/-- The `column[0] in self._trigger_columns` membership test of the resolve
loop: a name can only match while the tuple still holds names (the source
also checks `type(column[0]) == str`, which always holds for parsed header
names). -/
def memTC (nm : String) : TrigCols → Bool
  | TrigCols.names l => l.contains nm
  | TrigCols.indices _ => false

/-- The resolve loop of the triggered output handler: collect the positions
of schema columns whose name is a configured trigger column. -/
def resolveLoop (desc : Schema) (tc : TrigCols) (index : Nat) : List Nat :=
  match desc with
  | [] => []
  | col :: rest =>
    if memTC col.1 tc then index :: resolveLoop rest tc (index + 1)
    else resolveLoop rest tc (index + 1)

/-- The comparison loop of `CursorTriggeredSetMixIn._read_buffer`: walk the
watched column indices, comparing each field of the new row against the last
recorded value at the running position, stopping at the first difference. -/
def checkTrigger (cols : List Nat) (fields : List String) (vals : Dict String) (index : Nat) :
    Except PyExc Bool :=
  match cols with
  | [] => Except.ok false
  | c :: rest =>
    match lget fields c with
    | Except.error e => Except.error e
    | Except.ok fv =>
      match dget vals index with
      | Except.error e => Except.error e
      | Except.ok tv =>
        if fv != tv then Except.ok true
        else checkTrigger rest fields vals (index + 1)

/-- The value-recording loop: store each watched column's field of the row
under the running position.  The seeding loop of the triggered output
handler (cursors.py lines 441 to 444) and the re-recording loop of its
`_read_buffer` (lines 462 to 465) are this same walk. -/
def recordValues (cols : List Nat) (fields : List String) (index : Nat) (vals : Dict String) :
    Except PyExc (Dict String) :=
  match cols with
  | [] => Except.ok vals
  | c :: rest =>
    match lget fields c with
    | Except.error e => Except.error e
    | Except.ok fv => recordValues rest fields (index + 1) (dset vals index fv)

/-- The `settriggers` method: store the watched column names. -/
def settriggers (st : CState) (columns : List String) : CState :=
  { st with trigger_columns := TrigCols.names columns }

/-- The `CursorTriggeredSetMixIn._command_output_handler`: read the header
and the first data row, fix the schema, store the line source and the first
row as lookahead under the id, then resolve the trigger column names to
schema indices and seed the trigger values from that first data row. -/
def trig_command_output_handler (st : CState) (id : Nat) (output : List String) :
    Except PyExc Unit × CState :=
  match readline output with
  | (hline, o1) =>
    match readline o1 with
    | (bline, o2) =>
      match buildDescription (splitTab hline) (splitTab bline) 0 with
      | Except.error e => (Except.error e, st)
      | Except.ok desc =>
        let st1 := { st with descriptions := dset st.descriptions id desc,
                             result := dset st.result id o2,
                             buffer := dset st.buffer id (some bline) }
        let idxs := resolveLoop desc st1.trigger_columns 0
        match recordValues idxs (splitTab bline) 0 st1.trigger_column_values with
        | Except.error e =>
          (Except.error e,
           { st1 with trigger_init := true, trigger_columns := TrigCols.indices idxs })
        | Except.ok vals =>
          (Except.ok (),
           { st1 with trigger_init := true, trigger_columns := TrigCols.indices idxs,
                      trigger_column_values := vals })

/-- The `CursorTriggeredSetMixIn._read_buffer`: read one line from the
current id's source; with no watched columns return it unchanged; otherwise
compare the watched fields against the recorded values and, on any change,
record the new values, move the live source and the schema under id + 1,
store the just-read raw line as the new id's lookahead, delete the old id's
entries and return Python None. -/
def trig_read_buffer (st : CState) : Except PyExc (Option String) × CState :=
  match dget st.result st.result_index with
  | Except.error e => (Except.error e, st)
  | Except.ok src =>
    match readline src with
    | (line, rest) =>
      let st1 := { st with result := dset st.result st.result_index rest }
      if isEmptyTC st1.trigger_columns then (Except.ok (some line), st1)
      else
        match st1.trigger_columns with
        | TrigCols.names _ => (Except.error (PyErr.typeError, "tuple indices must be integers"), st1)
        | TrigCols.indices cols =>
          match checkTrigger cols (splitTab line) st1.trigger_column_values 0 with
          | Except.error e => (Except.error e, st1)
          | Except.ok false => (Except.ok (some line), st1)
          | Except.ok true =>
            match recordValues cols (splitTab line) 0 st1.trigger_column_values with
            | Except.error e => (Except.error e, st1)
            | Except.ok vals =>
              let st2 := { st1 with trigger_column_values := vals }
              match dget st2.result st2.result_index with
              | Except.error e => (Except.error e, st2)
              | Except.ok cur =>
                let st3 := { st2 with result := dset st2.result (st2.result_index + 1) cur }
                let st4 := { st3 with buffer := dset st3.buffer (st3.result_index + 1) (some line) }
                match ddel st4.result st4.result_index with
                | Except.error e => (Except.error e, st4)
                | Except.ok r2 =>
                  let st5 := { st4 with result := r2 }
                  match dget st5.descriptions st5.result_index with
                  | Except.error e => (Except.error e, st5)
                  | Except.ok dsc =>
                    let st6 := { st5 with
                      descriptions := dset st5.descriptions (st5.result_index + 1) dsc }
                    match ddel st6.descriptions st6.result_index with
                    | Except.error e => (Except.error e, st6)
                    | Except.ok d2 =>
                      let st7 := { st6 with descriptions := d2 }
                      match ddel st7.buffer st7.result_index with
                      | Except.error e => (Except.error e, st7)
                      | Except.ok b2 => (Except.ok none, { st7 with buffer := b2 })

theorem recordValues_spec (fields : List String) :
    ∀ (cols : List Nat) (index : Nat) (vals vals' : Dict String),
      recordValues cols fields index vals = Except.ok vals' →
      (∀ j c fv, cols.get? j = some c → fields.get? c = some fv →
        dget vals' (index + j) = Except.ok fv) ∧
      (∀ m, m < index → dget vals' m = dget vals m) := by
  intro cols
  induction cols with
  | nil =>
    intro index vals vals' h
    simp only [recordValues] at h
    cases h
    exact ⟨fun j c fv hc => by simp [List.get?] at hc, fun m _ => rfl⟩
  | cons c0 cs ih =>
    intro index vals vals' h
    simp only [recordValues] at h
    cases hl : lget fields c0 with
    | error e => rw [hl] at h; exact absurd h (by simp)
    | ok fv0 =>
      rw [hl] at h
      obtain ⟨hspec, hpres⟩ := ih (index + 1) (dset vals index fv0) vals' h
      have hg0 : fields.get? c0 = some fv0 := by
        unfold lget at hl
        cases hg : fields.get? c0 with
        | some a => rw [hg] at hl; cases hl; rfl
        | none => rw [hg] at hl; exact absurd hl (by simp)
      constructor
      · intro j c fv hc hf
        match j with
        | 0 =>
          obtain rfl : c0 = c := by simpa using hc
          rw [hg0] at hf
          obtain rfl : fv0 = fv := by simpa using hf
          have hp := hpres index (by omega)
          rw [show index + 0 = index from rfl, hp, dget_dset_self]
        | j + 1 =>
          have hs := hspec j c fv (by simpa using hc) hf
          rw [show index + (j + 1) = index + 1 + j by omega]
          exact hs
      · intro m hm
        rw [hpres m (by omega), dget_dset_ne vals index m fv0 (by omega)]

theorem recordValues_total (fields : List String) :
    ∀ (cols : List Nat) (index : Nat) (vals : Dict String),
      (∀ c ∈ cols, ∃ fv, fields.get? c = some fv) →
      ∃ vals', recordValues cols fields index vals = Except.ok vals' := by
  intro cols
  induction cols with
  | nil => intro index vals _; exact ⟨vals, rfl⟩
  | cons c0 cs ih =>
    intro index vals hb
    obtain ⟨fv0, hfv0⟩ := hb c0 (by simp)
    obtain ⟨vals', hv⟩ := ih (index + 1) (dset vals index fv0) (fun c hc => hb c (by simp [hc]))
    refine ⟨vals', ?_⟩
    simp only [recordValues, lget_of_get? fields c0 fv0 hfv0]
    exact hv

theorem checkTrigger_of_mismatch (fields : List String) :
    ∀ (i : Nat) (cols : List Nat) (vals : Dict String) (index : Nat) (c : Nat) (fv tv : String),
      cols.get? i = some c → fields.get? c = some fv →
      dget vals (index + i) = Except.ok tv → fv ≠ tv →
      (∀ j, j < i → ∃ cj fj tj, cols.get? j = some cj ∧ fields.get? cj = some fj ∧
        dget vals (index + j) = Except.ok tj) →
      checkTrigger cols fields vals index = Except.ok true := by
  intro i
  induction i with
  | zero =>
    intro cols vals index c fv tv hc hf ht hne _
    cases cols with
    | nil => exact absurd hc (by simp)
    | cons c0 cs =>
      obtain rfl : c0 = c := by simpa using hc
      simp only [checkTrigger, lget_of_get? fields c0 fv hf,
        show index + 0 = index from rfl] at ht ⊢
      rw [ht]
      simp [hne]
  | succ i ih =>
    intro cols vals index c fv tv hc hf ht hne hprev
    cases cols with
    | nil => exact absurd hc (by simp)
    | cons c0 cs =>
      obtain ⟨cj, fj, tj, hcj, hfj, htj⟩ := hprev 0 (Nat.succ_pos i)
      obtain rfl : c0 = cj := by simpa using hcj
      simp only [checkTrigger, lget_of_get? fields c0 fj hfj,
        show index + 0 = index from rfl] at htj ⊢
      rw [htj]
      by_cases heq : fj = tj
      · subst heq
        simp only [bne_self_eq_false, Bool.false_eq_true, if_false]
        apply ih cs vals (index + 1) c fv tv (by simpa using hc) hf
          (by rw [show index + 1 + i = index + (i + 1) by omega]; exact ht) hne
        intro j hj
        obtain ⟨cj2, fj2, tj2, h1, h2, h3⟩ := hprev (j + 1) (by omega)
        exact ⟨cj2, fj2, tj2, by simpa using h1, h2,
          by rw [show index + 1 + j = index + (j + 1) by omega]; exact h3⟩
      · simp [hne, heq]

/-- C2: under trigger splitting: (a) the trigger values are seeded from the
first data row by the output handler, not compared against anything; (b) the
very first data row is served from the lookahead buffer by any `_read_buffer`
implementation without touching the source or descriptions registry, so it
can never cause a split; (c) when a later row differs from the recorded
values in any watched column, the registry records the new values, moves the
live source and the schema under id + 1, stores the just-read raw line as the
new id's lookahead, removes the old id's source, schema and lookahead
entries, and returns no row to the caller for the old id. -/
theorem trigger_split_behavior :
    (∀ (st : CState) (id : Nat) (hline bline : String) (rest : List String) (u : Unit)
        (st' : CState),
      trig_command_output_handler st id (hline :: bline :: rest) = (Except.ok u, st') →
      ∀ (i c : Nat) (fv : String),
        (tcIndices st'.trigger_columns).get? i = some c →
        (splitTab bline).get? c = some fv →
        dget st'.trigger_column_values i = Except.ok fv) ∧
    (∀ (rb : CState → Except PyExc (Option String) × CState) (st : CState) (raw : String)
        (desc : Schema) (row : List PyVal),
      dget st.buffer st.result_index = Except.ok (some raw) → raw ≠ "" →
      st.description = some desc → decodeRow desc (splitTab raw) 0 = Except.ok row →
      fetch_row rb st =
        (Except.ok (some row), { st with buffer := dset st.buffer st.result_index Option.none })) ∧
    (∀ (st : CState) (cols : List Nat) (line : String) (rest : List String) (i c : Nat)
        (fv tv : String) (d : Schema),
      st.trigger_columns = TrigCols.indices cols →
      dget st.result st.result_index = Except.ok (line :: rest) →
      dget st.buffer st.result_index = Except.ok Option.none →
      dget st.descriptions st.result_index = Except.ok d →
      cols.get? i = some c →
      (splitTab line).get? c = some fv →
      dget st.trigger_column_values i = Except.ok tv →
      fv ≠ tv →
      (∀ j, j < i → ∃ cj fj tj, cols.get? j = some cj ∧ (splitTab line).get? cj = some fj ∧
        dget st.trigger_column_values j = Except.ok tj) →
      (∀ cj ∈ cols, ∃ fj, (splitTab line).get? cj = some fj) →
      ∃ st', fetch_row trig_read_buffer st = (Except.ok none, st') ∧
        st'.result_index = st.result_index ∧
        dget st'.result (st.result_index + 1) = Except.ok rest ∧
        dget st'.buffer (st.result_index + 1) = Except.ok (some line) ∧
        dget st'.descriptions (st.result_index + 1) = Except.ok d ∧
        dget st'.result st.result_index = Except.error (PyErr.keyError, toString st.result_index) ∧
        dget st'.buffer st.result_index = Except.error (PyErr.keyError, toString st.result_index) ∧
        dget st'.descriptions st.result_index =
          Except.error (PyErr.keyError, toString st.result_index) ∧
        (∀ j cj fj, cols.get? j = some cj → (splitTab line).get? cj = some fj →
          dget st'.trigger_column_values j = Except.ok fj)) := by
  refine ⟨?_, ?_, ?_⟩
  · intro st id hline bline rest u st' hout i c fv hidx hfv
    unfold trig_command_output_handler at hout
    simp only [readline] at hout
    split at hout
    · exact absurd hout (by simp)
    · rename_i desc hbd
      split at hout
      · exact absurd hout (by simp)
      · rename_i vals hrv
        injection hout with h1 h2
        subst h2
        have hspec := (recordValues_spec (splitTab bline) _ 0 st.trigger_column_values vals hrv).1
        have hres := hspec i c fv (by simpa [tcIndices] using hidx) hfv
        simpa using hres
  · intro rb st raw desc row hbuf hraw hdesc hrow
    have htruthy : truthyOpt (some raw) = true := by simp [truthyOpt, hraw]
    simp only [fetch_row, hbuf, htruthy, if_true, decodePhase, Bool.not_true,
      Bool.false_eq_true, if_false, Option.getD, hdesc, hrow]
  · intro st cols line rest i c fv tv d hcols hsrc hbuf hdesc hc hf ht hne hprev hbounds
    cases cols with
    | nil => exact absurd hc (by simp)
    | cons c0 cs =>
    have htrig : checkTrigger (c0 :: cs) (splitTab line) st.trigger_column_values 0 =
        Except.ok true := by
      apply checkTrigger_of_mismatch (splitTab line) i (c0 :: cs) st.trigger_column_values 0
        c fv tv hc hf (by simpa using ht) hne
      intro j hj
      obtain ⟨cj, fj, tj, h1, h2, h3⟩ := hprev j hj
      exact ⟨cj, fj, tj, h1, h2, by simpa using h3⟩
    obtain ⟨vals', hrec⟩ :=
      recordValues_total (splitTab line) (c0 :: cs) 0 st.trigger_column_values hbounds
    have hvals := (recordValues_spec (splitTab line) (c0 :: cs) 0
      st.trigger_column_values vals' hrec).1
    have hne1 : st.result_index ≠ st.result_index + 1 := by omega
    have hne1' : st.result_index + 1 ≠ st.result_index := by omega
    have hg1 : dget (dset st.result st.result_index rest) st.result_index = Except.ok rest :=
      dget_dset_self st.result st.result_index rest
    have hm1 : dmem (dset (dset st.result st.result_index rest) (st.result_index + 1) rest)
        st.result_index = true := by
      rw [dmem_dset_ne _ _ _ _ hne1]
      exact dmem_dset_self st.result st.result_index rest
    have hm2 : dmem (dset st.descriptions (st.result_index + 1) d) st.result_index = true := by
      rw [dmem_dset_ne _ _ _ _ hne1]
      exact dmem_of_dget st.descriptions st.result_index d hdesc
    have hm3 : dmem (dset st.buffer (st.result_index + 1) (some line)) st.result_index = true := by
      rw [dmem_dset_ne _ _ _ _ hne1]
      exact dmem_of_dget st.buffer st.result_index Option.none hbuf
    have hrun : trig_read_buffer st = (Except.ok none,
        { st with
          result := derase (dset (dset st.result st.result_index rest) (st.result_index + 1) rest)
            st.result_index,
          buffer := derase (dset st.buffer (st.result_index + 1) (some line)) st.result_index,
          descriptions := derase (dset st.descriptions (st.result_index + 1) d) st.result_index,
          trigger_column_values := vals' }) := by
      simp only [trig_read_buffer, hsrc, readline, hcols, isEmptyTC, htrig, hrec, hg1,
        ddel_of_dmem _ _ hm1, hdesc, ddel_of_dmem _ _ hm2, ddel_of_dmem _ _ hm3,
        Bool.false_eq_true, if_false]
    have htrnone : truthyOpt Option.none = false := rfl
    refine ⟨{ st with
      descriptions := derase (dset st.descriptions (st.result_index + 1) d) st.result_index,
      result := derase (dset (dset st.result st.result_index rest) (st.result_index + 1) rest)
        st.result_index,
      buffer := derase (dset st.buffer (st.result_index + 1) (some line)) st.result_index,
      trigger_column_values := vals' }, ?_, rfl, ?_, ?_, ?_, ?_, ?_, ?_, ?_⟩
    · simp only [fetch_row, hbuf, htrnone, Bool.false_eq_true, if_false, hrun, decodePhase,
        Bool.not_false, if_true]
    · rw [dget_derase_ne _ _ _ hne1', dget_dset_self]
    · rw [dget_derase_ne _ _ _ hne1', dget_dset_self]
    · rw [dget_derase_ne _ _ _ hne1', dget_dset_self]
    · exact dget_derase_self _ _
    · exact dget_derase_self _ _
    · exact dget_derase_self _ _
    · intro j cj fj h1 h2
      have := hvals j cj fj h1 h2
      simpa using this

/-- A triggered cursor that has executed and holds its first data row (with
trigger value 1 in the watched column 0) in the lookahead buffer, with the
next row still in the live source. -/
def firstRowTrigState : CState :=
  { executed := some "q", descriptions := [(0, [("k", "int"), ("v", "str")])],
    description := some [("k", "int"), ("v", "str")],
    result := [(0, ["2\tb\n"])], buffer := [(0, some "1\ta\n")],
    trigger_init := true, trigger_columns := TrigCols.indices [0],
    trigger_column_values := [(0, "1")] }

/-- The same cursor after its first row has been consumed: the lookahead is
cleared and the next source row changes the watched column from 1 to 2. -/
def splitTrigState : CState :=
  { executed := some "q", descriptions := [(0, [("k", "int"), ("v", "str")])],
    description := some [("k", "int"), ("v", "str")],
    result := [(0, ["2\tb\n"])], buffer := [(0, Option.none)],
    trigger_init := true, trigger_columns := TrigCols.indices [0],
    trigger_column_values := [(0, "1")] }

/-- Witness for trigger_split_behavior: seeding from the first data row of a
concrete stream, the first fetch serving that row without a split, and a
concrete watched-column change performing the split transition. -/
theorem trigger_split_behavior_witness :
    dget ((trig_command_output_handler (settriggers initCState ["k"]) 0
        ["k\tv\n", "1\ta\n"]).2).trigger_column_values 0 = Except.ok "1" ∧
    fetch_row trig_read_buffer firstRowTrigState =
      (Except.ok (some [PyVal.int 1, PyVal.str "a"]),
       { firstRowTrigState with buffer := dset firstRowTrigState.buffer 0 Option.none }) ∧
    (∃ st', fetch_row trig_read_buffer splitTrigState = (Except.ok none, st') ∧
      st'.result_index = 0 ∧
      dget st'.result 1 = Except.ok [] ∧
      dget st'.buffer 1 = Except.ok (some "2\tb\n") ∧
      dget st'.descriptions 1 = Except.ok [("k", "int"), ("v", "str")] ∧
      dget st'.result 0 = Except.error (PyErr.keyError, "0") ∧
      dget st'.buffer 0 = Except.error (PyErr.keyError, "0") ∧
      dget st'.descriptions 0 = Except.error (PyErr.keyError, "0") ∧
      (∀ j cj fj, [0].get? j = some cj → (splitTab "2\tb\n").get? cj = some fj →
        dget st'.trigger_column_values j = Except.ok fj)) := by
  refine ⟨?_, ?_, ?_⟩
  · exact trigger_split_behavior.1 (settriggers initCState ["k"]) 0 "k\tv\n" "1\ta\n" [] ()
      ((trig_command_output_handler (settriggers initCState ["k"]) 0 ["k\tv\n", "1\ta\n"]).2)
      rfl 0 0 "1" rfl rfl
  · exact trigger_split_behavior.2.1 trig_read_buffer firstRowTrigState "1\ta\n"
      [("k", "int"), ("v", "str")] [PyVal.int 1, PyVal.str "a"] rfl (by decide) rfl rfl
  · exact trigger_split_behavior.2.2 splitTrigState [0] "2\tb\n" [] 0 0 "2" "1"
      [("k", "int"), ("v", "str")] rfl rfl rfl rfl rfl rfl rfl (by decide)
      (fun j hj => absurd hj (Nat.not_lt_zero j))
      (by intro cj hcj; simp at hcj; subst hcj; exact ⟨"2", rfl⟩)

/-- Observable outcome of one `Query.run` invocation: the info and error
callback invocations in order (with the id each received), how many times
the output callback fired, the readiness flag, and the exception that
escaped the thread, if any. -/
structure RunResult where
  infoCalls : List (Nat × String)
  errorCalls : List (Nat × String)
  outputCalls : Nat
  ready : Bool
  raised : Option PyExc

/-- The diagnostic-scanning loop of `Query.run` (query.py lines 29 to 40):
read stderr lines while the process runs, forward each non-empty line to the
info callback, break on a line containing OK, and on a line containing
FAILED invoke the error callback and break.  After the loop the output
callback receives the primary output stream and ready is set.  `errRaises`
says whether the registered error callback raises when invoked: `true`
models the registered `_command_error_handler` chained to the default
`defaulterrorhandler`, which re-raises a ProgrammingError out of the run
thread so that neither the output callback nor the ready flag is reached;
`false` models an overridden, normally returning handler. -/
def query_run_loop (id : Nat) (errRaises : Bool) :
    List String → List (Nat × String) → List (Nat × String) → RunResult
  | [], info, errs =>
    { infoCalls := info, errorCalls := errs, outputCalls := 1, ready := true, raised := none }
  | l :: rest, info, errs =>
    let message := stripNL l
    let info1 := if message == "" then info else info ++ [(id, message)]
    if strContains message "OK" then
      { infoCalls := info1, errorCalls := errs, outputCalls := 1, ready := true, raised := none }
    else if strContains message "FAILED" then
      let errs1 := errs ++ [(id, message)]
      if errRaises then
        { infoCalls := info1, errorCalls := errs1, outputCalls := 0, ready := false,
          raised := some (PyErr.programmingError, message) }
      else
        { infoCalls := info1, errorCalls := errs1, outputCalls := 1, ready := true, raised := none }
    else query_run_loop id errRaises rest info1 errs

/-- One `Query.run` over the given stderr lines (the process's diagnostic
stream until it exits). -/
def query_run (id : Nat) (stderrLines : List String) (errRaises : Bool) : RunResult :=
  query_run_loop id errRaises stderrLines [] []

/-- The `Query.wait` busy loop (`while not self.ready: continue`) returns
exactly when run has set the ready flag; otherwise the caller spins forever. -/
def wait_releases (r : RunResult) : Bool := r.ready

/-- Counterexample to C1 as stated: with the registered callbacks (the
default error handler raises), a FAILED diagnostic line does invoke the
error callback with the id and the line, but the raise aborts run before the
output callback, which never fires, ready is never set, and wait() spins
forever. -/
theorem run_failed_default_callbacks_counterexample :
    (query_run 0 ["FAILED: syntax error\n"] true).errorCalls = [(0, "FAILED: syntax error")] ∧
    (query_run 0 ["FAILED: syntax error\n"] true).outputCalls = 0 ∧
    wait_releases (query_run 0 ["FAILED: syntax error\n"] true) = false ∧
    (query_run 0 ["FAILED: syntax error\n"] true).raised =
      some (PyErr.programmingError, "FAILED: syntax error") := ⟨rfl, rfl, rfl, rfl⟩

theorem query_run_loop_failed (id : Nat) (line : String) (post : List String)
    (hfail : strContains (stripNL line) "FAILED" = true)
    (hok : strContains (stripNL line) "OK" = false) :
    ∀ (pre : List String) (info : List (Nat × String)),
      (∀ l ∈ pre, strContains (stripNL l) "OK" = false ∧
        strContains (stripNL l) "FAILED" = false) →
      (query_run_loop id false (pre ++ line :: post) info []).errorCalls = [(id, stripNL line)] ∧
      (query_run_loop id false (pre ++ line :: post) info []).outputCalls = 1 ∧
      (query_run_loop id false (pre ++ line :: post) info []).ready = true := by
  intro pre
  induction pre with
  | nil =>
    intro info _
    simp only [List.nil_append, query_run_loop, hok, hfail, Bool.false_eq_true, if_false,
      if_true, List.nil_append]
    exact ⟨trivial, trivial, trivial⟩
  | cons l ls ih =>
    intro info hpre
    obtain ⟨hlok, hlfail⟩ := hpre l (by simp)
    simp only [List.cons_append, query_run_loop, hlok, hlfail, Bool.false_eq_true, if_false]
    exact ih _ (fun x hx => hpre x (by simp [hx]))

/-- C1 amended: after a FAILED diagnostic line the driver invokes the error
callback with the id and the offending (newline-stripped) line, and,
provided the error callback returns normally instead of raising, still
invokes the output callback exactly once and marks itself ready so wait()
returns.  With the registered default-raising handler the counterexample
applies: run aborts before the output callback and wait() never returns. -/
theorem run_failed_output_callback_amended (id : Nat) (pre post : List String) (line : String)
    (hpre : ∀ l ∈ pre, strContains (stripNL l) "OK" = false ∧
      strContains (stripNL l) "FAILED" = false)
    (hfail : strContains (stripNL line) "FAILED" = true)
    (hok : strContains (stripNL line) "OK" = false) :
    (query_run id (pre ++ line :: post) false).errorCalls = [(id, stripNL line)] ∧
    (query_run id (pre ++ line :: post) false).outputCalls = 1 ∧
    wait_releases (query_run id (pre ++ line :: post) false) = true :=
  query_run_loop_failed id line post hfail hok pre [] hpre

/-- Witness for run_failed_output_callback_amended at a concrete stream. -/
theorem run_failed_output_callback_amended_witness :
    (query_run 7 ["FAILED: syntax error\n"] false).errorCalls = [(7, "FAILED: syntax error")] ∧
    (query_run 7 ["FAILED: syntax error\n"] false).outputCalls = 1 ∧
    wait_releases (query_run 7 ["FAILED: syntax error\n"] false) = true :=
  run_failed_output_callback_amended 7 [] [] "FAILED: syntax error\n"
    (fun l hl => absurd hl (List.not_mem_nil l)) (by decide) (by decide)

/-- The names bound at module level in query.py: `from threading import
Thread` binds only `Thread`; the module name `threading` itself is never
bound. -/
def queryModuleGlobals : List String := ["logging", "Thread", "PIPE", "Popen", "logger", "Query"]

/-- A constructed Query thread object (never actually obtained, see
`Query.init`). -/
structure QueryHandle where
  id : Nat
  command : List String
  ready : Bool

/-- Embeds `Query.__init__`: its first statement evaluates the name
`threading` (in `threading.Thread.__init__(self)`), which is not among the
module globals, so Python raises a NameError before any of the remaining
initialization runs and before `run` (the only place a process is spawned)
can ever be started. -/
def Query.init (id : Nat) (command : List String) : Except PyExc QueryHandle :=
  if queryModuleGlobals.contains "threading" then
    Except.ok { id := id, command := command, ready := false }
  else Except.error (PyErr.nameError, "name threading is not defined")

/-- The `BaseCursor._do_query` method: check the connection, record the
query as executed, build the command line (session directives, optional
scheduler pool, optional privilege elevation; the source's quote-escaping
`replace` is the identity since the Python replacement text is a plain
double quote), then construct the Query driver.  Starting and waiting on the
driver would spawn the external process and is outside this pure model; that
branch is unreachable because the construction always raises. -/
def do_query (st : CState) (q : String) : Except PyExc Unit × CState :=
  if !st.connected then
    (Except.error (PyErr.programmingError, "cursor closed"),
     { st with messages := st.messages ++ [(PyErr.programmingError, "cursor closed")] })
  else
    let st1 := { st with executed := some q }
    let q1 := "set hive.cli.print.header=true; " ++ q
    let q2 := match st1.user with
      | some u => if u == "" then q1 else "SET mapred.fairscheduler.pool=" ++ u ++ "; " ++ q1
      | Option.none => q1
    let command := if st1.write_access
      then ["sudo", "-uhdfs", "hive", "-e", "\"" ++ q2 ++ "\""]
      else ["hive", "-e", "\"" ++ q2 ++ "\""]
    match Query.init st1.result_index command with
    | Except.error e => (Except.error e, st1)
    | Except.ok _ => (Except.ok (), { st1 with result_index := st1.result_index + 1 })

/-- The `BaseCursor.execute` method with `args=None` (so no placeholder
formatting happens): `_pre_execute`, then `_query`; an exception is appended
to messages and re-raised through the default error handler (which appends
it a second time); on success `_post_execute` restores index 0 and publishes
its description. -/
def execute (st : CState) (q : String) : Except PyExc Unit × CState :=
  let st0 := { st with messages := [], result_index := 0, result := [], description := none }
  match do_query st0 q with
  | (Except.ok _, st1) =>
    let st2 := { st1 with result_index := 0 }
    match dget st2.descriptions 0 with
    | Except.error e => (Except.error e, st2)
    | Except.ok d => (Except.ok (), { st2 with description := some d })
  | (Except.error e, st1) =>
    (Except.error e, { st1 with messages := st1.messages ++ [e, e] })

/-- C10: constructing the driver raises a NameError for every id and
command, before any external process is spawned; consequently every
execute() on a connected cursor fails with that NameError at driver
construction, and the output callback never runs (the descriptions and
lookahead registries are left untouched). -/
theorem query_init_name_error :
    (∀ (id : Nat) (cmd : List String),
      Query.init id cmd = Except.error (PyErr.nameError, "name threading is not defined")) ∧
    (∀ (st : CState) (q : String), st.connected = true →
      (execute st q).1 = Except.error (PyErr.nameError, "name threading is not defined") ∧
      (execute st q).2.descriptions = st.descriptions ∧
      (execute st q).2.buffer = st.buffer) := by
  have hinit : ∀ (id : Nat) (cmd : List String),
      Query.init id cmd = Except.error (PyErr.nameError, "name threading is not defined") := by
    intro id cmd
    simp [Query.init, queryModuleGlobals]
  refine ⟨hinit, ?_⟩
  intro st q hconn
  cases hu : st.user with
  | none =>
    cases hw : st.write_access <;>
      simp [execute, do_query, hconn, hu, hw, hinit]
  | some u =>
    by_cases hu0 : u == "" <;> cases hw : st.write_access <;>
      simp [execute, do_query, hconn, hu, hw, hu0, hinit]

/-- Witness for query_init_name_error: execute on a fresh connected cursor. -/
theorem query_init_name_error_witness :
    (execute initCState "SELECT 1").1 =
      Except.error (PyErr.nameError, "name threading is not defined") :=
  (query_init_name_error.2 initCState "SELECT 1" rfl).1
